import Mathlib

/-!
Verification of the command execution and job-control subsystem of a small
interactive shell.  The shell's run loop (`app/main.c`) reads a line, trims
it, parses it into a null-terminated argument vector, dispatches built-in
commands (`exit`, `cd`, `history`), and otherwise forks a child that joins
its own process group, receives the terminal, restores default signal
dispositions and execs the program, while the parent grants the terminal to
the child, waits, and reclaims the terminal.  The helper functions
(`src/lab.c`) are `handle_args`, `split_command`, `strip_whitespace`,
`handle_cd` and `execute_builtin`.

The shallow embedding below models the observable effects of one run-loop
iteration as a trace of events, and models the pure helper functions
directly.  OS outcomes that the code merely branches on (fork result, wait
result, chdir success, environment variables, the user database) are
explicit parameters.
-/

/-- Observable effects performed by the shell, in program order. -/
inductive Ev where
  | setpgid (pid pgid : Int)
  | tcsetpgrp (fd pgid : Int)
  | sigdfl (signo : Nat)
  | execvp (prog : String)
  | exitEv (code : Nat)
  | abortEv
  | perrorEv (msg : String)
  | waitpidEv (pid : Int)
  | stderrEv (msg : String)
  | stdoutEv (msg : String)
  | cmdFree
  | sessionInit
deriving DecidableEq, Repr

/-- Linux signal number for SIGINT. -/
def SIGINT : Nat := 2

/-- Linux signal number for SIGQUIT. -/
def SIGQUIT : Nat := 3

/-- Linux signal number for SIGTSTP. -/
def SIGTSTP : Nat := 20

/-- Linux signal number for SIGTTIN. -/
def SIGTTIN : Nat := 21

/-- Linux signal number for SIGTTOU. -/
def SIGTTOU : Nat := 22

/-- WTERMSIG of a wait status word (glibc: status mod 128). -/
def wTermSig (status : Nat) : Nat := status % 128

/-- WEXITSTATUS of a wait status word (glibc: bits 8..15). -/
def wExitStatus (status : Nat) : Nat := (status / 256) % 256

/-- WIFEXITED of a wait status word (glibc: WTERMSIG is zero). -/
def wIfExited (status : Nat) : Bool := wTermSig status == 0

/-- WIFSIGNALED of a wait status word (glibc: WTERMSIG in 1..126). -/
def wIfSignaled (status : Nat) : Bool :=
  (wTermSig status != 0) && (wTermSig status != 127)

/-- WIFSTOPPED of a wait status word (glibc: low byte is 0x7f). -/
def wIfStopped (status : Nat) : Bool := status % 256 == 127

/-- WSTOPSIG of a wait status word (glibc: same bits as WEXITSTATUS). -/
def wStopSig (status : Nat) : Nat := wExitStatus status

/-- WIFCONTINUED of a wait status word (glibc: status is 0xffff). -/
def wIfContinued (status : Nat) : Bool := status == 65535

/-- Embedding of `explain_waitpid` in `app/main.c`: the list of diagnostic
lines written to standard error for a wait status word.  Note the first
test in the source is `!WIFEXITED(status)`. -/
def explain_waitpid (status : Nat) : List String :=
  (if !wIfExited status then
    ["Child exited with status " ++ toString (wExitStatus status)] else [])
  ++ (if wIfSignaled status then
    ["Child exited via signal " ++ toString (wTermSig status)] else [])
  ++ (if wIfStopped status then
    ["Child stopped by " ++ toString (wStopSig status)] else [])
  ++ (if wIfContinued status then
    ["Child was resumed by delivery of SIGCONT"] else [])

/-- Embedding of the parent branch of the fork in `main` (`app/main.c`
lines 79-90): set the child's process group, grant it the terminal, wait,
report a failed wait, free the command vector, reclaim the terminal.
`waitRval` is the value returned by `waitpid` and `status` the status word
it left behind. -/
def parentBranch (term shellPgid childPid waitRval : Int) (status : Nat) :
    List Ev :=
  [Ev.setpgid childPid childPid, Ev.tcsetpgrp term childPid,
   Ev.waitpidEv childPid]
  ++ (if waitRval = -1 then
        Ev.stderrEv "Wait pid failed with -1"
          :: (explain_waitpid status).map Ev.stderrEv
      else [])
  ++ [Ev.cmdFree, Ev.tcsetpgrp term shellPgid]

/-- Embedding of the child branch of the fork in `main` (`app/main.c`
lines 53-65): join an own process group, take the terminal, restore the
five job-control signals to their default disposition, exec the program,
and on exec failure exit with EXIT_FAILURE.  `execOk` tells whether the
exec succeeded (in which case the trace ends at the image replacement). -/
def childBranch (term childPid : Int) (prog : String) (execOk : Bool) :
    List Ev :=
  [Ev.setpgid childPid childPid, Ev.tcsetpgrp term childPid,
   Ev.sigdfl SIGINT, Ev.sigdfl SIGQUIT, Ev.sigdfl SIGTSTP,
   Ev.sigdfl SIGTTIN, Ev.sigdfl SIGTTOU,
   Ev.execvp prog]
  ++ (if execOk then [] else [Ev.exitEv 1])

/-- C's `isspace` on the default locale: space, tab, newline, vertical
tab, form feed, carriage return. -/
def cIsSpace (c : Char) : Bool :=
  c = ' ' || c = '\t' || c = '\n' || c = '\x0b' || c = '\x0c' || c = '\r'

/-- Embedding of `strip_whitespace` in `src/lab.c`: drop leading
`isspace` characters, then drop trailing ones. -/
def strip_whitespace (s : String) : String :=
  String.mk (((s.data.dropWhile cIsSpace).reverse.dropWhile cIsSpace).reverse)

/-- Accumulator form of `strtok`-style scanning: characters satisfying
`delim` separate tokens, runs of them count as one separator, and no empty
token is produced.  `acc` holds the (reversed) token being built. -/
def tokensAux (delim : Char → Bool) : List Char → List Char → List (List Char)
  | [], acc => if acc.isEmpty then [] else [acc.reverse]
  | c :: cs, acc =>
    if delim c then
      if acc.isEmpty then tokensAux delim cs []
      else acc.reverse :: tokensAux delim cs []
    else tokensAux delim cs (c :: acc)

/-- Embedding of `split_command` in `src/lab.c`: `strtok(input, " ")` in a
loop bounded by `MAX_ARGS - 1` stored tokens, then a null terminator slot.
A slot is `some tok` for a stored token and `none` for the terminating
null pointer. -/
def split_command (maxArgs : Nat) (input : String) : List (Option String) :=
  ((tokensAux (fun c => c == ' ') input.data []).take (maxArgs - 1)).map
    (fun t => some (String.mk t)) ++ [none]

/-- Index into a null-terminated argument vector, as `args[i]` in C: out of
range behaves like the terminating null. -/
def argvGet (argv : List (Option String)) (i : Nat) : Option String :=
  argv.getD i none

/-- Environment an invocation of `cd` runs against: the HOME variable, the
`pw_dir` field of the user-database entry for the current uid (if any),
and which paths `chdir` would succeed on. -/
structure CdEnv where
  homeEnv : Option String
  pwDir : Option String
  chdirOk : String → Bool

/-- Embedding of `handle_cd` in `src/lab.c`.  Returns the C return value
(0 or -1), the resulting working directory, and the `perror` tags written
to standard error. -/
def handle_cd (env : CdEnv) (wd : String) (argv : List (Option String)) :
    Int × String × List String :=
  match argvGet argv 1 with
  | none =>
    match env.homeEnv.orElse (fun _ => env.pwDir) with
    | some h => if env.chdirOk h then (0, h, []) else (-1, wd, ["cd"])
    | none => (0, wd, [])
  | some dir => if env.chdirOk dir then (0, dir, []) else (-1, wd, ["cd"])

/-- Outcome of the built-in dispatcher: either the shell process exited
(the `exit` built-in), or it returned the C boolean. -/
inductive BuiltinResult where
  | exited (code : Nat)
  | ret (wasBuiltin : Bool)
deriving DecidableEq, Repr

/-- Embedding of `execute_builtin` in `src/lab.c`.  Returns the dispatch
outcome, the resulting working directory, the lines printed to standard
output, and the error tags written to standard error.  Note the `cd` arm
returns `handle_cd(argv) == 0`. -/
def execute_builtin (env : CdEnv) (hist : List String) (histBase : Nat)
    (wd : String) (argv : List (Option String)) :
    BuiltinResult × String × List String × List String :=
  match argvGet argv 0 with
  | none => (BuiltinResult.ret false, wd, [], [])
  | some a0 =>
    if a0 = "exit" then (BuiltinResult.exited 0, wd, [], [])
    else if a0 = "cd" then
      match handle_cd env wd argv with
      | (r, wd2, errs) => (BuiltinResult.ret (r == 0), wd2, [], errs)
    else if a0 = "history" then
      (BuiltinResult.ret true, wd,
       hist.mapIdx (fun i e => toString (i + histBase) ++ "  " ++ e), [])
    else (BuiltinResult.ret false, wd, [], [])

/-- Declarative splitter used on the specification side: cut the list at
every delimiter character and discard the empty chunks, leaving exactly the
maximal runs of non-delimiter characters in order. -/
def splitRuns (delim : Char → Bool) (l : List Char) : List (List Char) :=
  (l.splitOnP delim).filter (fun t => !t.isEmpty)

/-- Tokenization the specification's words ask for: splitting the line
purely on runs of whitespace. -/
def specWhitespaceTokens (input : String) : List String :=
  (splitRuns cIsSpace input.data).map String.mk

/-- Long-lived shell session state the run loop reads: the controlling
terminal descriptor and the shell's own process group id. -/
structure ShellSt where
  term : Int
  pgid : Int

/-- OS outcomes one run-loop iteration branches on: the fork return value
as seen by the shell, the `waitpid` return value, and the wait status
word. -/
structure LineEnv where
  forkResult : Int
  waitRval : Int
  status : Nat

/-- How one run-loop iteration ends: continue with a working directory,
exit the shell, or abort it. -/
inductive LineOut where
  | cont (wd : String)
  | exited (code : Nat)
  | aborted
deriving Repr

/-- Embedding of the body of the run loop in `main` (`app/main.c` lines
49-91) for an already-trimmed, non-blank line `t`: parse, dispatch
built-ins, otherwise fork; on fork failure perror and abort, otherwise run
the parent branch. -/
def lineBody (maxArgs : Nat) (sh : ShellSt) (cdEnv : CdEnv)
    (hist : List String) (histBase : Nat) (wd t : String) (env : LineEnv) :
    List Ev × LineOut :=
  let cmd := split_command maxArgs t
  match execute_builtin cdEnv hist histBase wd cmd with
  | (BuiltinResult.exited code, _, out, errs) =>
    (out.map Ev.stdoutEv ++ errs.map Ev.stderrEv ++ [Ev.exitEv code],
     LineOut.exited code)
  | (BuiltinResult.ret true, wd2, out, errs) =>
    (out.map Ev.stdoutEv ++ errs.map Ev.stderrEv, LineOut.cont wd2)
  | (BuiltinResult.ret false, wd2, out, errs) =>
    if env.forkResult < 0 then
      (out.map Ev.stdoutEv ++ errs.map Ev.stderrEv
        ++ [Ev.perrorEv "fork return < 0 Process creation failed!",
            Ev.abortEv],
       LineOut.aborted)
    else
      (out.map Ev.stdoutEv ++ errs.map Ev.stderrEv
        ++ parentBranch sh.term sh.pgid env.forkResult env.waitRval
             env.status,
       LineOut.cont wd2)

/-- Embedding of the run loop in `main` (`app/main.c` lines 38-92): blank
lines are skipped without touching history, non-blank lines are recorded
and processed; the loop stops when the shell exits or aborts. -/
def runLoop (maxArgs : Nat) (sh : ShellSt) (cdEnv : CdEnv) (histBase : Nat)
    (wd : String) (hist : List String) :
    List (String × LineEnv) → List Ev
  | [] => []
  | (line, env) :: rest =>
    let t := strip_whitespace line
    if t = "" then runLoop maxArgs sh cdEnv histBase wd hist rest
    else
      let hist2 := hist ++ [t]
      match lineBody maxArgs sh cdEnv hist2 histBase wd t env with
      | (evs, LineOut.cont wd2) =>
        evs ++ runLoop maxArgs sh cdEnv histBase wd2 hist2 rest
      | (evs, _) => evs

/-- Outcome of startup flag processing: the process exited with a code
after printing some lines, or the function returned. -/
inductive ArgsOutcome where
  | exited (code : Nat) (out : List String)
  | returned
deriving DecidableEq, Repr

/-- Line printed by the version flag in `handle_args` (`src/lab.c`):
`printf("Shell Release: %d.%d\n", ...)`. -/
def versionLine (major minor : Nat) : String :=
  "Shell Release: " ++ toString major ++ "." ++ toString minor

/-- Embedding of `handle_args` in `src/lab.c` over the stream of option
characters produced by `getopt(argc, argv, "v")` (a recognized `-v`
yields `v`; an unrecognized flag makes `getopt` print its own diagnostic
and yield `?`, which the loop ignores). -/
def handle_args (major minor : Nat) : List Char → ArgsOutcome
  | [] => ArgsOutcome.returned
  | c :: rest =>
    if c = 'v' then ArgsOutcome.exited 0 [versionLine major minor]
    else handle_args major minor rest

/-- Embedding of the startup sequence of `main` (`app/main.c` lines
32-38): flag processing runs first; only if it returns is the shell
session constructed and the run loop entered. -/
def shell_main (major minor maxArgs : Nat) (opts : List Char) (sh : ShellSt)
    (cdEnv : CdEnv) (histBase : Nat) (wd : String)
    (lines : List (String × LineEnv)) : List Ev :=
  match handle_args major minor opts with
  | ArgsOutcome.exited code out => out.map Ev.stdoutEv ++ [Ev.exitEv code]
  | ArgsOutcome.returned =>
    Ev.sessionInit :: runLoop maxArgs sh cdEnv histBase wd [] lines

/-- Events that are process-group, terminal-ownership or wait operations. -/
def isJobControlEv : Ev → Bool
  | Ev.setpgid _ _ => true
  | Ev.tcsetpgrp _ _ => true
  | Ev.waitpidEv _ => true
  | _ => false

/-- Events allowed between the return of `waitpid` and the terminal
reclaim: wait-failure reporting and freeing the command vector. -/
def isCleanupEv : Ev → Bool
  | Ev.stderrEv _ => true
  | Ev.cmdFree => true
  | _ => false

/-- Home-directory resolution rule the specification states for `cd`:
an explicit second token wins, else the HOME variable, else the
user-database entry. -/
def cdTarget (env : CdEnv) (argv : List (Option String)) : Option String :=
  match argvGet argv 1 with
  | some dir => some dir
  | none => env.homeEnv.orElse (fun _ => env.pwDir)

lemma parentBranch_getLast (t s c w : Int) (st : Nat) :
    (parentBranch t s c w st).getLast? = some (Ev.tcsetpgrp t s) := by
  have h : parentBranch t s c w st =
      ([Ev.setpgid c c, Ev.tcsetpgrp t c, Ev.waitpidEv c]
        ++ (if w = -1 then
              Ev.stderrEv "Wait pid failed with -1"
                :: (explain_waitpid st).map Ev.stderrEv
            else [])
        ++ [Ev.cmdFree]) ++ [Ev.tcsetpgrp t s] := by
    unfold parentBranch
    simp
  rw [h, List.getLast?_concat]

/-- C4: before replacing its image, the forked child sets its process
group id to its own process id and restores SIGINT, SIGQUIT, SIGTSTP,
SIGTTIN and SIGTTOU to their default disposition; when the exec fails the
child's trace ends by exiting with the non-success status 1 instead of
returning to shell logic. -/
theorem c4_child_setup_before_exec (term childPid : Int) (prog : String)
    (execOk : Bool) :
    ∃ pre : List Ev,
      childBranch term childPid prog execOk =
        pre ++ Ev.execvp prog :: (if execOk then [] else [Ev.exitEv 1]) ∧
      Ev.setpgid childPid childPid ∈ pre ∧
      Ev.sigdfl SIGINT ∈ pre ∧ Ev.sigdfl SIGQUIT ∈ pre ∧
      Ev.sigdfl SIGTSTP ∈ pre ∧ Ev.sigdfl SIGTTIN ∈ pre ∧
      Ev.sigdfl SIGTTOU ∈ pre ∧ (1 : Nat) ≠ 0 := by
  refine ⟨[Ev.setpgid childPid childPid, Ev.tcsetpgrp term childPid,
    Ev.sigdfl SIGINT, Ev.sigdfl SIGQUIT, Ev.sigdfl SIGTSTP,
    Ev.sigdfl SIGTTIN, Ev.sigdfl SIGTTOU], rfl, ?_, ?_, ?_, ?_, ?_, ?_, ?_⟩
  all_goals simp

/-- C5 counterexample: for a concrete external command the event that
immediately follows the return of `waitpid` is the freeing of the command
vector, not the reclaim of the terminal, so code does run between wait's
return and the reclaim. -/
theorem c5_between_wait_and_reclaim :
    parentBranch 0 10 20 20 0 =
      [Ev.setpgid 20 20, Ev.tcsetpgrp 0 20, Ev.waitpidEv 20,
       Ev.cmdFree, Ev.tcsetpgrp 0 10] ∧
    (parentBranch 0 10 20 20 0)[3]? = some Ev.cmdFree ∧
    Ev.cmdFree ≠ Ev.tcsetpgrp 0 10 := by decide

/-- C5 (amended): in the parent, the terminal is granted to the child
before the shell blocks on wait, and the shell's own foreground status is
reclaimed after wait returns on every path; everything that runs between
wait's return and the reclaim is wait-failure reporting to standard error
or the freeing of the command vector. -/
theorem c5_amended_grant_wait_reclaim (t s c w : Int) (st : Nat) :
    ∃ mid : List Ev,
      parentBranch t s c w st =
        [Ev.setpgid c c, Ev.tcsetpgrp t c, Ev.waitpidEv c] ++ mid
          ++ [Ev.tcsetpgrp t s] ∧
      mid.all isCleanupEv = true := by
  refine ⟨(if w = -1 then
      Ev.stderrEv "Wait pid failed with -1"
        :: (explain_waitpid st).map Ev.stderrEv
    else []) ++ [Ev.cmdFree], ?_, ?_⟩
  · unfold parentBranch
    by_cases h : w = -1 <;> simp [h]
  · by_cases h : w = -1 <;>
      simp [h, isCleanupEv, List.all_append, List.all_map, Function.comp]

lemma modifyHead_fun_id (l : List (List Char)) :
    l.modifyHead (fun t => t) = l := by
  cases l <;> rfl

lemma tokensAux_splitOnP (delim : Char → Bool) (l : List Char) :
    ∀ acc : List Char,
      tokensAux delim l acc =
        ((l.splitOnP delim).modifyHead (fun t => acc.reverse ++ t)).filter
          (fun t => !t.isEmpty) := by
  induction l with
  | nil =>
    intro acc
    cases acc with
    | nil => rfl
    | cons a as => simp [tokensAux, List.splitOnP_nil]
  | cons c cs ih =>
    intro acc
    by_cases hd : delim c
    · cases acc with
      | nil =>
        simp [tokensAux, hd, List.splitOnP_cons, ih, modifyHead_fun_id]
      | cons a as =>
        simp [tokensAux, hd, List.splitOnP_cons, ih, modifyHead_fun_id]
    · simp [tokensAux, hd, List.splitOnP_cons, ih, Function.comp_def]

/-- Boolean test for the `exit`-style dispatch outcome. -/
def isExitedRes : BuiltinResult → Bool
  | BuiltinResult.exited _ => true
  | BuiltinResult.ret _ => false

lemma handle_args_characterization (major minor : Nat) (opts : List Char) :
    handle_args major minor opts =
      if opts.contains 'v' then
        ArgsOutcome.exited 0 [versionLine major minor]
      else ArgsOutcome.returned := by
  induction opts with
  | nil => rfl
  | cons c rest ih =>
    by_cases h : c = 'v'
    · subst h
      simp [handle_args]
    · simp [handle_args, h, ih, show ¬ ('v' = c) from fun hh => h hh.symm]

/-- C7 counterexample: the version flag prints `Shell Release: 1.0`,
which is not the `Shell Version: 1.0` the claim demands, and an
unrecognized option character makes `handle_args` return normally instead
of exiting with failure status. -/
theorem c7_flag_output_and_no_reject :
    handle_args 1 0 ['v'] = ArgsOutcome.exited 0 ["Shell Release: 1.0"] ∧
    ("Shell Release: 1.0" == "Shell Version: 1.0") = false ∧
    handle_args 1 0 ['?'] = ArgsOutcome.returned := by decide

/-- C7 (amended): flag processing runs before the session is constructed;
a version flag prints `Shell Release: <major>.<minor>` and exits with
success before any session setup, while any other option stream (getopt
reports unrecognized flags itself) lets the shell construct its session
and enter the run loop. -/
theorem c7_amended_flag_handling (major minor maxArgs : Nat)
    (opts : List Char) (sh : ShellSt) (cdEnv : CdEnv) (histBase : Nat)
    (wd : String) (lines : List (String × LineEnv)) :
    shell_main major minor maxArgs opts sh cdEnv histBase wd lines =
      if opts.contains 'v' then
        [Ev.stdoutEv (versionLine major minor), Ev.exitEv 0]
      else Ev.sessionInit :: runLoop maxArgs sh cdEnv histBase wd []
        lines := by
  unfold shell_main
  rw [handle_args_characterization]
  by_cases h : 'v' ∈ opts <;> simp [h]

/-- C8: `cd` changes to the second token when one is present, otherwise to
the home directory resolved from the HOME variable with the user-database
entry as fallback; a failed change reports an error and leaves the working
directory unchanged, and no `cd` ever exits the shell. -/
theorem c8_cd_target_and_failure :
    (∀ (env : CdEnv) (wd : String) (argv : List (Option String)),
      handle_cd env wd argv =
        match cdTarget env argv with
        | some tgt =>
          if env.chdirOk tgt then (0, tgt, []) else (-1, wd, ["cd"])
        | none => (0, wd, [])) ∧
    (∀ (env : CdEnv) (hist : List String) (histBase : Nat) (wd : String)
        (rest : List (Option String)),
      isExitedRes (execute_builtin env hist histBase wd
        (some "cd" :: rest)).1 = false) := by
  constructor
  · intro env wd argv
    unfold handle_cd cdTarget
    cases h1 : argvGet argv 1 with
    | none =>
      cases h2 : env.homeEnv.orElse (fun _ => env.pwDir) with
      | none => simp
      | some hh => simp
    | some dir => simp
  · intro env hist histBase wd rest
    unfold execute_builtin
    have h0 : argvGet (some "cd" :: rest) 0 = some "cd" := rfl
    rw [h0]
    rcases handle_cd env wd (some "cd" :: rest) with ⟨r, wd2, errs⟩
    simp [isExitedRes]

/-- C10: `cd` with no second token, no HOME variable and no user-database
home directory returns success, leaves the working directory unchanged,
and reports nothing. -/
theorem c10_cd_no_home_silent_success (chOk : String → Bool) (wd : String)
    (a0 : Option String) :
    handle_cd ⟨none, none, chOk⟩ wd [a0] = (0, wd, []) := by
  rfl

/-- C1: for every non-built-in command on which fork succeeded, whatever
`waitpid` returned and whatever status word it produced, the run-loop
iteration's last effect is handing the terminal back to the shell's own
process group. -/
theorem c1_shell_reclaims_terminal (maxArgs : Nat) (sh : ShellSt)
    (cdEnv : CdEnv) (hist : List String) (histBase : Nat) (wd t : String)
    (env : LineEnv)
    (hb : (execute_builtin cdEnv hist histBase wd
        (split_command maxArgs t)).1 = BuiltinResult.ret false)
    (hf : 0 < env.forkResult) :
    (lineBody maxArgs sh cdEnv hist histBase wd t env).1.getLast? =
      some (Ev.tcsetpgrp sh.term sh.pgid) := by
  rcases hE : execute_builtin cdEnv hist histBase wd
      (split_command maxArgs t) with ⟨r, wd2, out, errs⟩
  rw [hE] at hb
  simp only at hb
  subst hb
  have hnot : ¬ env.forkResult < 0 := by omega
  simp only [lineBody, hE, if_neg hnot]
  rw [List.append_assoc, List.getLast?_append, List.getLast?_append,
    parentBranch_getLast]
  rfl

/-- C1 witness: a concrete external command `true` with fork succeeding
and a normal wait ends its iteration by giving the terminal back to the
shell's process group. -/
theorem c1_witness :
    (lineBody 64 ⟨0, 1⟩ ⟨none, none, fun _ => false⟩ ["true"] 1 "/" "true"
      ⟨5, 5, 0⟩).1.getLast? = some (Ev.tcsetpgrp 0 1) :=
  c1_shell_reclaims_terminal 64 ⟨0, 1⟩ ⟨none, none, fun _ => false⟩ ["true"]
    1 "/" "true" ⟨5, 5, 0⟩ (by decide) (by decide)

/-- C2 (code evaluated at the failing input): a command vector whose
first token is `cd` but whose directory change fails makes the dispatcher
return false, because `execute_builtin` returns `handle_cd(argv) == 0`;
the run loop therefore falls through to external execution. -/
theorem c2_cd_failure_returns_false :
    argvGet [some "cd", some "/nonexistent", none] 0 = some "cd" ∧
    (handle_cd ⟨none, none, fun _ => false⟩ "/"
      [some "cd", some "/nonexistent", none]).1 = -1 ∧
    (execute_builtin ⟨none, none, fun _ => false⟩ [] 1 "/"
      [some "cd", some "/nonexistent", none]).1 =
      BuiltinResult.ret false := by
  refine ⟨rfl, rfl, rfl⟩

/-- C3: when a non-blank, non-built-in line is processed and fork returns
a negative value, the run loop's trace ends with the abort, the remaining
input lines contribute nothing, and no process-group, terminal-ownership
or wait operation is performed. -/
theorem c3_fork_failure_aborts (maxArgs : Nat) (sh : ShellSt)
    (cdEnv : CdEnv) (histBase : Nat) (wd : String) (hist : List String)
    (line : String) (env : LineEnv) (rest : List (String × LineEnv))
    (ht : strip_whitespace line ≠ "")
    (hb : (execute_builtin cdEnv (hist ++ [strip_whitespace line]) histBase
        wd (split_command maxArgs (strip_whitespace line))).1 =
        BuiltinResult.ret false)
    (hf : env.forkResult < 0) :
    runLoop maxArgs sh cdEnv histBase wd hist ((line, env) :: rest) =
      runLoop maxArgs sh cdEnv histBase wd hist [(line, env)] ∧
    (runLoop maxArgs sh cdEnv histBase wd hist
        ((line, env) :: rest)).getLast? = some Ev.abortEv ∧
    (runLoop maxArgs sh cdEnv histBase wd hist
        ((line, env) :: rest)).all (fun e => !isJobControlEv e) = true := by
  rcases hE : execute_builtin cdEnv (hist ++ [strip_whitespace line])
      histBase wd (split_command maxArgs (strip_whitespace line))
    with ⟨r, wd2, out, errs⟩
  rw [hE] at hb
  simp only at hb
  subst hb
  have hrun : runLoop maxArgs sh cdEnv histBase wd hist ((line, env) :: rest)
      = out.map Ev.stdoutEv ++ errs.map Ev.stderrEv
        ++ [Ev.perrorEv "fork return < 0 Process creation failed!",
            Ev.abortEv] := by
    simp only [runLoop, if_neg ht, lineBody, hE, if_pos hf]
  have hrun1 : runLoop maxArgs sh cdEnv histBase wd hist [(line, env)]
      = out.map Ev.stdoutEv ++ errs.map Ev.stderrEv
        ++ [Ev.perrorEv "fork return < 0 Process creation failed!",
            Ev.abortEv] := by
    simp only [runLoop, if_neg ht, lineBody, hE, if_pos hf]
  refine ⟨hrun.trans hrun1.symm, ?_, ?_⟩
  · rw [hrun]
    have h2 : out.map Ev.stdoutEv ++ errs.map Ev.stderrEv
        ++ [Ev.perrorEv "fork return < 0 Process creation failed!",
            Ev.abortEv]
        = (out.map Ev.stdoutEv ++ errs.map Ev.stderrEv
            ++ [Ev.perrorEv "fork return < 0 Process creation failed!"])
          ++ [Ev.abortEv] := by simp
    rw [h2, List.getLast?_concat]
  · rw [hrun]
    simp [List.all_append, List.all_map, Function.comp, isJobControlEv]

/-- C3 witness: a concrete non-built-in line `true` with fork failing
aborts the shell regardless of the remaining input, and performs no
process-group, terminal or wait operation. -/
theorem c3_witness :
    runLoop 64 ⟨0, 1⟩ ⟨none, none, fun _ => false⟩ 1 "/" []
        [("true", ⟨-1, 0, 0⟩), ("ls", ⟨7, 7, 0⟩)] =
      runLoop 64 ⟨0, 1⟩ ⟨none, none, fun _ => false⟩ 1 "/" []
        [("true", ⟨-1, 0, 0⟩)] ∧
    (runLoop 64 ⟨0, 1⟩ ⟨none, none, fun _ => false⟩ 1 "/" []
        [("true", ⟨-1, 0, 0⟩), ("ls", ⟨7, 7, 0⟩)]).getLast? =
      some Ev.abortEv ∧
    (runLoop 64 ⟨0, 1⟩ ⟨none, none, fun _ => false⟩ 1 "/" []
        [("true", ⟨-1, 0, 0⟩), ("ls", ⟨7, 7, 0⟩)]).all
      (fun e => !isJobControlEv e) = true :=
  c3_fork_failure_aborts 64 ⟨0, 1⟩ ⟨none, none, fun _ => false⟩ 1 "/" []
    "true" ⟨-1, 0, 0⟩ [("ls", ⟨7, 7, 0⟩)] (by decide) (by decide) (by decide)

/-- C9 counterexample: on the line `a<tab>b` splitting on runs of
whitespace yields two tokens, but the tokenizer, which hands `strtok` the
delimiter string consisting of the space character only, yields the single
token `a<tab>b`. -/
theorem c9_tab_not_a_delimiter :
    split_command 4096 "a\tb" = [some "a\tb", none] ∧
    (specWhitespaceTokens "a\tb").map some ++ [none] =
      [some "a", some "b", none] ∧
    (([some "a\tb", none] : List (Option String)) ==
      [some "a", some "b", none]) = false := by decide

/-- C9 (amended): for every input line the tokenizer produces the ordered
sequence of tokens obtained by splitting purely on runs of space
characters (tab and other whitespace are not delimiters), truncated to the
MAX_ARGS argument bound, and the vector's final entry is the null
terminator, distinguishable from every real argument. -/
theorem c9_amended_space_run_tokenizer (maxArgs : Nat) (input : String) :
    split_command maxArgs input =
      ((splitRuns (fun c => c == ' ') input.data).take (maxArgs - 1)).map
        (fun t => some (String.mk t)) ++ [none] ∧
    (split_command maxArgs input).getLast? = some none := by
  constructor
  · have hfun : (fun t : List Char => List.reverse [] ++ t) =
        (fun t : List Char => t) := by
      funext t
      simp
    unfold split_command splitRuns
    rw [tokensAux_splitOnP, hfun, modifyHead_fun_id]
  · unfold split_command
    rw [List.getLast?_concat]

/-- C6: the wait-status decoder evaluated at concrete inputs.  For status
word 0 the child exited normally yet no exit-code line is produced, while
for status word 2 (child killed by signal 2) a bogus "Child exited with
status 0" line is produced: the source tests `!WIFEXITED(status)`.  The
wait-failure path itself does report to standard error before freeing the
command vector and reclaiming the terminal. -/
theorem c6_wait_failure_decoding :
    wIfExited 0 = true ∧ explain_waitpid 0 = [] ∧
    wIfExited 2 = false ∧ wIfSignaled 2 = true ∧
    explain_waitpid 2 =
      ["Child exited with status 0", "Child exited via signal 2"] ∧
    parentBranch 0 10 20 (-1) 0 =
      [Ev.setpgid 20 20, Ev.tcsetpgrp 0 20, Ev.waitpidEv 20,
       Ev.stderrEv "Wait pid failed with -1", Ev.cmdFree,
       Ev.tcsetpgrp 0 10] := by decide
